import Mathlib

/-!
GG_front: the formatter configuration `prettier.config.cjs`.

The repository's only source file is a CommonJS module whose body is a single
assignment `module.exports = { ... }` of an object literal.  The literal is
embedded as the list of its properties in source order; loading the module is
the evaluation of that literal into an object.
-/

namespace PrettierConfig

/-- The values that occur on the right of a property in the source: the
boolean literals, a number literal, string literals and array literals whose
elements are string literals.  A number is held as the integer its literal
writes; that is the value JavaScript loads only for an integer a double
represents exactly (see `isSafeInteger`), as the `100` of the source is. -/
inductive Value where
  | bool (b : Bool)
  | num (n : Int)
  | str (s : String)
  | strs (xs : List String)
  deriving DecidableEq, Repr

/-- A property of an object literal, `key: value`, as written. -/
abbrev Property := String × Value

/-- An object literal: its properties in the order they are written. -/
abbrev ObjectLiteral := List Property

/-- An object: its own properties in insertion order, every key once. -/
abbrev Obj := List Property

/-- The result of JavaScript's `typeof`, with arrays told apart from other
objects (`Array.isArray`). -/
inductive Kind where
  | boolean
  | number
  | string
  | array
  deriving DecidableEq, Repr

/-- The kind of a value. -/
def Value.kind : Value → Kind
  | .bool _ => .boolean
  | .num _ => .number
  | .str _ => .string
  | .strs _ => .array

/-- Definition of one property on an object, as the evaluation of an object
literal does it: a key that is already present keeps its position and takes the
new value, a new key is appended. -/
def defineProperty (o : Obj) (k : String) (v : Value) : Obj :=
  match o with
  | [] => [(k, v)]
  | (k', v') :: rest =>
    if k' = k then (k', v) :: rest else (k', v') :: defineProperty rest k v

/-- Evaluation of an object literal: the properties are defined one after the
other, from the first written to the last, on an empty object.  The keys are
taken to be ordinary names, as the ten of the source are: integer-like keys,
which JavaScript lists first, and `__proto__` are not modelled. -/
def evalObjectLiteral (lit : ObjectLiteral) : Obj :=
  lit.foldl (fun o p => defineProperty o p.1 p.2) []

/-- Own-property read: the value of the own property `k` of `o`, `none` when
`o` has no own property `k`.  Names inherited from `Object.prototype`, such as
`toString`, are not modelled. -/
def getProp (o : Obj) (k : String) : Option Value :=
  match o with
  | [] => none
  | (k', v) :: rest => if k' = k then some v else getProp rest k

/-- The own keys of an object, in order (`Object.keys`). -/
def keys (o : Obj) : List String :=
  o.map Prod.fst

/-- The object literal of `prettier.config.cjs`, lines 2 to 11. -/
def source : ObjectLiteral :=
  [ ("semi", .bool false),
    ("singleQuote", .bool true),
    ("printWidth", .num 100),
    ("trailingComma", .str "es5"),
    ("bracketSpacing", .bool true),
    ("vueIndentScriptAndStyle", .bool true),
    ("plugins", .strs ["@trivago/prettier-plugin-sort-imports", "prettier-plugin-tailwindcss"]),
    ("importOrder", .strs ["^vue(.*)$", "^@?w", "^@/(.*)$", "^[./]"]),
    ("importOrderSeparation", .bool true),
    ("importOrderSortSpecifiers", .bool true) ]

/-- The module body `module.exports = { ... }` for an arbitrary object literal
in place of the one written: the literal is evaluated and the object exported.
The module has no statement besides the assignment, so nothing inspects the
values and the load always yields the object (`none` would be a load that
throws). -/
def loadModule (lit : ObjectLiteral) : Option Obj :=
  some (evalObjectLiteral lit)

/-- The operation `load()`: requiring `prettier.config.cjs`.  It takes no
input. -/
def load (_ : Unit) : Option Obj :=
  loadModule source

/-- The string elements of the array stored under `k`, when the own property
`k` of `o` is such an array. -/
def getStrs (o : Obj) (k : String) : Option (List String) :=
  match getProp o k with
  | some (.strs xs) => some xs
  | _ => none

/-- The object literal of the source with the value written for `k` replaced
by `v` (every property named `k`), everything else as written. -/
def withValue (lit : ObjectLiteral) (k : String) (v : Value) : ObjectLiteral :=
  lit.map fun p => if p.1 = k then (p.1, v) else p

/-- The values written for `k` in an object literal, one per property named
`k`, in source order. -/
def written (lit : ObjectLiteral) (k : String) : List Value :=
  lit.filterMap fun p => if p.1 = k then some p.2 else none

/-- The integers a number literal denotes exactly (`Number.isSafeInteger`):
those of absolute value at most `2^53 - 1`. -/
def isSafeInteger (n : Int) : Bool :=
  decide (-9007199254740991 ≤ n ∧ n ≤ 9007199254740991)

/-! ## The loaded document -/

/-- Claim C1: the document that `load()` returns has semicolons disabled
(`semi` is `false`), the single quote style (`singleQuote` is `true`) and a
maximum line width of exactly 100 (`printWidth` is `100`). -/
theorem load_semi_singleQuote_printWidth :
    ∃ doc, load () = some doc ∧
      getProp doc "semi" = some (.bool false) ∧
      getProp doc "singleQuote" = some (.bool true) ∧
      getProp doc "printWidth" = some (.num 100) := by
  refine ⟨evalObjectLiteral source, rfl, ?_, ?_, ?_⟩ <;> decide

/-- Claim C2: the import group patterns of the loaded document are exactly the
sequence `^vue(.*)$`, `^@?w`, `^@/(.*)$`, `^[./]`: four elements in that order,
at every index the loaded pattern is the declared one, and the sequence is the
one array the literal writes for `importOrder` (nothing reordered, dropped or
deduplicated). -/
theorem load_importOrder_exact :
    ∃ doc loaded, load () = some doc ∧ getStrs doc "importOrder" = some loaded ∧
      loaded = ["^vue(.*)$", "^@?w", "^@/(.*)$", "^[./]"] ∧
      loaded.length = 4 ∧
      (∀ i : Nat, loaded[i]? = ["^vue(.*)$", "^@?w", "^@/(.*)$", "^[./]"][i]?) ∧
      written source "importOrder" = [.strs loaded] := by
  refine ⟨evalObjectLiteral source, ["^vue(.*)$", "^@?w", "^@/(.*)$", "^[./]"],
    rfl, ?_, rfl, rfl, fun _ => rfl, ?_⟩ <;> decide

/-- Claim C3: the plugin references of the loaded document are exactly two
names, first `@trivago/prettier-plugin-sort-imports`, then
`prettier-plugin-tailwindcss`; a consumer that invokes its plugin loader once
per element of the list, in list order (hypothesis `h`), invokes it with the
first name and then with the second, and with nothing else. -/
theorem load_plugins_loader_invocations {σ : Type} (loader : String → σ → σ)
    (consume : List String → σ → σ)
    (h : ∀ (names : List String) (s : σ),
      consume names s = names.foldl (fun acc n => loader n acc) s)
    (s : σ) :
    ∃ doc names, load () = some doc ∧ getStrs doc "plugins" = some names ∧
      names = ["@trivago/prettier-plugin-sort-imports", "prettier-plugin-tailwindcss"] ∧
      consume names s =
        loader "prettier-plugin-tailwindcss"
          (loader "@trivago/prettier-plugin-sort-imports" s) := by
  refine ⟨evalObjectLiteral source,
    ["@trivago/prettier-plugin-sort-imports", "prettier-plugin-tailwindcss"],
    rfl, by decide, rfl, ?_⟩
  rw [h]
  rfl

/-- Witness for C3: a consumer whose loader records every name it is invoked
with, started on the empty record, ends with exactly the two plugin names in
the order of the document. -/
theorem load_plugins_loader_invocations_witness :
    ∃ doc names, load () = some doc ∧ getStrs doc "plugins" = some names ∧
      names = ["@trivago/prettier-plugin-sort-imports", "prettier-plugin-tailwindcss"] ∧
      List.foldl (fun acc n => acc ++ [n]) ([] : List String) names =
        ["@trivago/prettier-plugin-sort-imports", "prettier-plugin-tailwindcss"] :=
  load_plugins_loader_invocations (fun n acc => acc ++ [n])
    (fun names s => names.foldl (fun acc n => acc ++ [n]) s) (fun _ _ => rfl) []

/-- Claim C5: the loaded document satisfies `maxLineWidth > 0`: its
`printWidth` is an integer and it is positive. -/
theorem load_printWidth_pos :
    ∃ doc w, load () = some doc ∧ getProp doc "printWidth" = some (.num w) ∧ 0 < w := by
  refine ⟨evalObjectLiteral source, 100, rfl, ?_, ?_⟩ <;> decide

/-- Counterexample for C6: the document written with `printWidth: 0`, and the
one written with `printWidth: -1`, are not rejected; each is loaded and
returned with the width as written.  So it is false that every non-positive
width fails the load. -/
theorem loadModule_accepts_nonpositive_printWidth :
    (∃ doc, loadModule (withValue source "printWidth" (.num 0)) = some doc ∧
      getProp doc "printWidth" = some (.num 0)) ∧
    (∃ doc, loadModule (withValue source "printWidth" (.num (-1))) = some doc ∧
      getProp doc "printWidth" = some (.num (-1))) ∧
    ¬ (∀ w : Int, w ≤ 0 →
      loadModule (withValue source "printWidth" (.num w)) = none) := by
  refine ⟨⟨_, rfl, by decide⟩, ⟨_, rfl, by decide⟩, fun h => ?_⟩
  have h0 := h 0 (le_refl 0)
  simp [loadModule] at h0

/-- Claim C6, amended: a document whose `printWidth` is not positive is not
rejected.  For every integer `w` with `w ≤ 0` that a number literal denotes
exactly, the document written with `printWidth: w` is loaded and returned, and
its `printWidth` is `w`. -/
theorem loadModule_returns_nonpositive_printWidth (w : Int)
    (hsafe : isSafeInteger w = true) (hw : w ≤ 0) :
    isSafeInteger w = true ∧ w ≤ 0 ∧
    ∃ doc, loadModule (withValue source "printWidth" (.num w)) = some doc ∧
      getProp doc "printWidth" = some (.num w) := by
  refine ⟨hsafe, hw, _, rfl, ?_⟩
  simp [withValue, source, evalObjectLiteral, defineProperty, getProp]

/-- Witness for C6: the amended claim at `w = -100`, the shipped width
negated. -/
theorem loadModule_returns_nonpositive_printWidth_witness :
    isSafeInteger (-100) = true ∧ (-100 : Int) ≤ 0 ∧
    ∃ doc, loadModule (withValue source "printWidth" (.num (-100))) = some doc ∧
      getProp doc "printWidth" = some (.num (-100)) :=
  loadModule_returns_nonpositive_printWidth (-100) (by decide) (by decide)

/-- Claim C7: the trailing-comma policy of the loaded document is `es5`, a
member of the enumeration `none`, `es5`, `all`. -/
theorem load_trailingComma_es5 :
    ∃ doc policy, load () = some doc ∧ getProp doc "trailingComma" = some (.str policy) ∧
      policy = "es5" ∧ policy ∈ ["none", "es5", "all"] := by
  refine ⟨evalObjectLiteral source, "es5", rfl, ?_, rfl, ?_⟩ <;> decide

/-- Claim C8: the exported document defines exactly ten options, the ten keys
of the schema and no other; each holds a value of the declared type (a boolean
for the six flags, `singleQuote` being the flag that encodes the quote style, a
positive integer for `printWidth`, a string of the enumeration for
`trailingComma`, an array of strings for `plugins` and `importOrder`); and
`bracketSpacing`, `vueIndentScriptAndStyle`, `importOrderSeparation` and
`importOrderSortSpecifiers` are all `true`. -/
theorem load_fully_populated :
    ∃ doc, load () = some doc ∧
      keys doc = ["semi", "singleQuote", "printWidth", "trailingComma", "bracketSpacing",
        "vueIndentScriptAndStyle", "plugins", "importOrder", "importOrderSeparation",
        "importOrderSortSpecifiers"] ∧
      (keys doc).length = 10 ∧
      (∀ k, k ∉ ["semi", "singleQuote", "printWidth", "trailingComma", "bracketSpacing",
        "vueIndentScriptAndStyle", "plugins", "importOrder", "importOrderSeparation",
        "importOrderSortSpecifiers"] → getProp doc k = none) ∧
      doc.map (fun p => (p.1, p.2.kind)) =
        [("semi", .boolean), ("singleQuote", .boolean), ("printWidth", .number),
          ("trailingComma", .string), ("bracketSpacing", .boolean),
          ("vueIndentScriptAndStyle", .boolean), ("plugins", .array),
          ("importOrder", .array), ("importOrderSeparation", .boolean),
          ("importOrderSortSpecifiers", .boolean)] ∧
      (∃ w, getProp doc "printWidth" = some (.num w) ∧ 0 < w) ∧
      (∃ policy, getProp doc "trailingComma" = some (.str policy) ∧
        policy ∈ ["none", "es5", "all"]) ∧
      getProp doc "bracketSpacing" = some (.bool true) ∧
      getProp doc "vueIndentScriptAndStyle" = some (.bool true) ∧
      getProp doc "importOrderSeparation" = some (.bool true) ∧
      getProp doc "importOrderSortSpecifiers" = some (.bool true) := by
  refine ⟨evalObjectLiteral source, rfl, by decide, by decide, ?_, by decide,
    ⟨100, by decide, by decide⟩, ⟨"es5", by decide, by decide⟩,
    by decide, by decide, by decide, by decide⟩
  intro k hk
  simp only [List.mem_cons, List.mem_singleton, List.not_mem_nil, or_false, not_or] at hk
  obtain ⟨h1, h2, h3, h4, h5, h6, h7, h8, h9, h10⟩ := hk
  simp [source, evalObjectLiteral, defineProperty, getProp, Ne.symm h1, Ne.symm h2,
    Ne.symm h3, Ne.symm h4, Ne.symm h5, Ne.symm h6, Ne.symm h7, Ne.symm h8, Ne.symm h9,
    Ne.symm h10]

/-- Claim C9: in the loaded document the four import group patterns are
pairwise distinct and the two plugin names are distinct; every pattern is a
non-empty string whose first character is `^`; and no key is written twice in
the object literal, so every property as written is the one the document
holds, none shadowed by a later one. -/
theorem load_no_duplicates :
    ∃ doc plugins patterns, load () = some doc ∧
      getStrs doc "plugins" = some plugins ∧
      getStrs doc "importOrder" = some patterns ∧
      patterns.length = 4 ∧ patterns.Nodup ∧
      plugins.length = 2 ∧ plugins.Nodup ∧
      (∀ p ∈ patterns, p ≠ "" ∧ p.data.head? = some '^') ∧
      (source.map Prod.fst).Nodup ∧
      (∀ p ∈ source, getProp doc p.1 = some p.2) := by
  refine ⟨evalObjectLiteral source,
    ["@trivago/prettier-plugin-sort-imports", "prettier-plugin-tailwindcss"],
    ["^vue(.*)$", "^@?w", "^@/(.*)$", "^[./]"], rfl, ?_, ?_, ?_, ?_, ?_, ?_, ?_, ?_, ?_⟩ <;>
    decide

end PrettierConfig
